import Mathlib

/-!
Verification of the TerranPix edit-history and coordination core.

Shallow embedding of the state handling in src/App.tsx, the AdjustmentPanel
apply control in src/components/AdjustmentPanel.tsx, and the response decoder
handleApiResponse in src/services/geminiService.ts. React useState fields
become fields of an explicit AppState record; each useCallback handler becomes
a function from AppState (plus its event inputs) to AppState. The single
awaited service call inside an async handler is passed in as an Except value,
so one Lean function computes the state reached after the whole handler run.
JavaScript numbers that can become NaN or Infinity are modelled by JSVal,
which separates finite rationals from the non-finite class.
-/

namespace TerranPix

/-- A JavaScript number: either a finite rational or a non-finite value
(NaN or an infinity; the distinction never matters to the program, which only
stores such values, so they are collapsed into one constructor). -/
inductive JSVal where
  | num : ℚ → JSVal
  | nonfinite : JSVal
deriving DecidableEq, Repr

/-- JavaScript division: a zero divisor yields a non-finite value
(Infinity or NaN), a nonzero divisor yields the exact quotient. -/
def jsDiv (a b : ℚ) : JSVal :=
  if b = 0 then JSVal.nonfinite else JSVal.num (a / b)

/-- Multiplication of a JavaScript number by a finite rational; a non-finite
operand stays non-finite (Infinity times zero is NaN, also non-finite). -/
def jsMulQ : JSVal → ℚ → JSVal
  | JSVal.num q, c => JSVal.num (q * c)
  | JSVal.nonfinite, _ => JSVal.nonfinite

/-- JavaScript Math.round on a finite value: round half toward positive
infinity, i.e. the floor of x + 1/2. -/
def jround (q : ℚ) : ℤ :=
  ⌊q + 1 / 2⌋

/-- JavaScript Math.round lifted to JSVal: NaN and the infinities map to
themselves, hence stay non-finite. -/
def jsRound : JSVal → JSVal
  | JSVal.num q => JSVal.num ((jround q : ℤ) : ℚ)
  | JSVal.nonfinite => JSVal.nonfinite

/-- The four editor tabs of App.tsx. -/
inductive Tab where
  | retouch | adjust | filters | crop
deriving DecidableEq, Repr

/-- A File object as the program builds one in dataURLtoFile: a name, a MIME
type and the base64 payload taken from the data URL (the byte-level atob
decoding carries no information the program ever reads back, so the payload
string itself stands for the binary content). -/
structure JSFile where
  name : String
  mime : String
  data : String
deriving DecidableEq, Repr

/-- A react-image-crop PixelCrop: a rectangle in displayed-image pixel
coordinates. -/
structure PixelCrop where
  x : ℚ
  y : ℚ
  width : ℚ
  height : ℚ
deriving DecidableEq, Repr

/-- A point with JavaScript-number coordinates (the editHotspot shape). -/
structure JPt where
  x : JSVal
  y : JSVal
deriving DecidableEq, Repr

/-- A point with finite coordinates (the displayHotspot shape). -/
structure QPt where
  x : ℚ
  y : ℚ
deriving DecidableEq, Repr

/-- The bounding client rect of the displayed image element. -/
structure Rect where
  left : ℚ
  top : ℚ
  width : ℚ
  height : ℚ
deriving DecidableEq, Repr

/-- The App component state: one field per useState hook that the
edit-history core reads or writes (comparison toggles that never touch
history are kept only where a modelled handler writes them). -/
structure AppState where
  history : List JSFile
  historyIndex : ℤ
  prompt : String
  isLoading : Bool
  error : Option String
  editHotspot : Option JPt
  displayHotspot : Option QPt
  activeTab : Tab
  crop : Option PixelCrop
  completedCrop : Option PixelCrop
  isSideBySide : Bool
deriving DecidableEq, Repr

/-- history[historyIndex] ?? null: a negative or out-of-range index reads as
undefined, hence null. -/
def currentImage (s : AppState) : Option JSFile :=
  if s.historyIndex < 0 then none else s.history.get? s.historyIndex.toNat

/-- canUndo = historyIndex > 0. -/
def canUndo (s : AppState) : Bool :=
  decide (0 < s.historyIndex)

/-- canRedo = historyIndex < history.length - 1. -/
def canRedo (s : AppState) : Bool :=
  decide (s.historyIndex < (s.history.length : ℤ) - 1)

/-- addImageToHistory: slice the history to [0, historyIndex] (slice end
historyIndex + 1, which is 0 when historyIndex is -1), push the new file, set
the index to the new last position, and clear the crop selection state. -/
def addImageToHistory (s : AppState) (newImageFile : JSFile) : AppState :=
  let newHistory := s.history.take (s.historyIndex + 1).toNat ++ [newImageFile]
  { s with history := newHistory
           historyIndex := (newHistory.length : ℤ) - 1
           crop := none
           completedCrop := none }

/-- handleUndo: when canUndo, decrement the index and clear both hotspots. -/
def handleUndo (s : AppState) : AppState :=
  if canUndo s then
    { s with historyIndex := s.historyIndex - 1
             editHotspot := none
             displayHotspot := none }
  else s

/-- handleRedo: when canRedo, increment the index and clear both hotspots. -/
def handleRedo (s : AppState) : AppState :=
  if canRedo s then
    { s with historyIndex := s.historyIndex + 1
             editHotspot := none
             displayHotspot := none }
  else s

/-- handleReset: when the history is non-empty and the user confirms the
dialog, move the cursor back to 0 and clear error, hotspots and crop state;
the history sequence itself is left as it is. -/
def handleReset (s : AppState) (confirmed : Bool) : AppState :=
  if 0 < s.history.length ∧ confirmed = true then
    { s with historyIndex := 0
             error := none
             editHotspot := none
             displayHotspot := none
             crop := none
             completedCrop := none }
  else s

/-- handleTabChange: switch the active tab; leaving side-by-side mode when
entering the retouch or crop tab is its only other effect. -/
def handleTabChange (s : AppState) (tab : Tab) : AppState :=
  let s1 := { s with activeTab := tab }
  if s.isSideBySide = true ∧ (tab = Tab.retouch ∨ tab = Tab.crop) then
    { s1 with isSideBySide := false }
  else s1

/-- handleImageClick: outside the retouch tab or while loading, return
without any update; otherwise set the edit hotspot to the rounded
pointer-to-native conversion and the display hotspot to the raw
pointer-relative offset. -/
def handleImageClick (s : AppState) (clientX clientY : ℚ) (rect : Rect)
    (naturalWidth naturalHeight : ℚ) : AppState :=
  if s.activeTab ≠ Tab.retouch ∨ s.isLoading = true then s
  else
    let x := jsRound (jsMulQ (jsDiv (clientX - rect.left) rect.width) naturalWidth)
    let y := jsRound (jsMulQ (jsDiv (clientY - rect.top) rect.height) naturalHeight)
    { s with editHotspot := some { x := x, y := y }
             displayHotspot := some { x := clientX - rect.left, y := clientY - rect.top } }

/-- The capture group of the regular expression that extracts the MIME type
from a data-URL header: the first colon followed by a later semicolon starts
the match and the capture runs lazily up to that first semicolon. When the
text after the first colon holds no semicolon, no later colon can either, so
the whole match fails. -/
def mimeCapture (header : String) : Option String :=
  match header.splitOn ":" with
  | [] => none
  | [_] => none
  | _ :: rest =>
    let tail := String.intercalate ":" rest
    if tail.contains ';' then some (tail.takeWhile (fun c => c ≠ ';')) else none

/-- dataURLtoFile: split the data URL on commas; fewer than two pieces is an
invalid data URL; a missing or empty MIME capture in the header is a MIME
parse failure; otherwise build the File from the given name, the captured
MIME type and the payload piece. -/
def dataURLtoFile (dataurl filename : String) : Except String JSFile :=
  match dataurl.splitOn "," with
  | header :: payload :: _ =>
    match mimeCapture header with
    | some m =>
      if m = "" then
        Except.error "Impossible d\x27analyser le type MIME à partir de l\x27URL de données"
      else
        Except.ok { name := filename, mime := m, data := payload }
    | none =>
      Except.error "Impossible d\x27analyser le type MIME à partir de l\x27URL de données"
  | _ => Except.error "URL de données invalide"

/-- The outcome of running one async edit handler to completion: the state
after the handler (including its finally block), whether setIsLoading true was
reached (the operation entered the in-flight phase), whether the external
service call was dispatched, and whether addImageToHistory ran. -/
structure RunResult where
  state : AppState
  entered : Bool
  called : Bool
  committed : Bool
deriving DecidableEq, Repr

/-- handleGenerate, run to completion. The three validation checks fire in
source order before anything else; then the state enters loading, the awaited
generateEditedImage call resolves to the given svc value, its data URL is
decoded by dataURLtoFile, a successful decode is committed and the hotspots
cleared, any caught failure stores its message behind the fixed prefix, and
the finally block drops isLoading in every reached branch. The timestamp used
in the generated file name is passed in as now. -/
def handleGenerateRun (s : AppState) (svc : Except String String) (now : ℕ) :
    RunResult :=
  if currentImage s = none then
    { state := { s with error := some "Aucune image chargée à modifier." }
      entered := false, called := false, committed := false }
  else if s.prompt.trim = "" then
    { state := { s with error := some "Veuillez entrer une description pour votre modification." }
      entered := false, called := false, committed := false }
  else if s.editHotspot = none then
    { state := { s with error := some "Veuillez cliquer sur l\x27image pour sélectionner une zone à modifier." }
      entered := false, called := false, committed := false }
  else
    let s1 : AppState := { s with isLoading := true, error := none }
    match svc with
    | Except.error e =>
      { state := { s1 with error := some ("Échec de la génération de l\x27image. " ++ e)
                           isLoading := false }
        entered := true, called := true, committed := false }
    | Except.ok url =>
      match dataURLtoFile url ("modifiee-" ++ toString now ++ ".png") with
      | Except.error d =>
        { state := { s1 with error := some ("Échec de la génération de l\x27image. " ++ d)
                             isLoading := false }
          entered := true, called := true, committed := false }
      | Except.ok f =>
        let s2 := addImageToHistory s1 f
        { state := { s2 with editHotspot := none, displayHotspot := none, isLoading := false }
          entered := true, called := true, committed := true }

/-- handleApplyFilter, run to completion: the only validation is the presence
of a current image; a successful decode of the service result is committed
(hotspots are not touched), failures store their message behind the filter
prefix, and the finally block drops isLoading. -/
def handleApplyFilterRun (s : AppState) (svc : Except String String) (now : ℕ) :
    RunResult :=
  if currentImage s = none then
    { state := { s with error := some "Aucune image chargée pour appliquer un filtre." }
      entered := false, called := false, committed := false }
  else
    let s1 : AppState := { s with isLoading := true, error := none }
    match svc with
    | Except.error e =>
      { state := { s1 with error := some ("Échec de l\x27application du filtre. " ++ e)
                           isLoading := false }
        entered := true, called := true, committed := false }
    | Except.ok url =>
      match dataURLtoFile url ("filtree-" ++ toString now ++ ".png") with
      | Except.error d =>
        { state := { s1 with error := some ("Échec de l\x27application du filtre. " ++ d)
                             isLoading := false }
          entered := true, called := true, committed := false }
      | Except.ok f =>
        { state := { addImageToHistory s1 f with isLoading := false }
          entered := true, called := true, committed := true }

/-- handleApplyAdjustment, run to completion: same shape as the filter
handler with the adjustment messages and file name. -/
def handleApplyAdjustmentRun (s : AppState) (svc : Except String String) (now : ℕ) :
    RunResult :=
  if currentImage s = none then
    { state := { s with error := some "Aucune image chargée pour appliquer un ajustement." }
      entered := false, called := false, committed := false }
  else
    let s1 : AppState := { s with isLoading := true, error := none }
    match svc with
    | Except.error e =>
      { state := { s1 with error := some ("Échec de l\x27application de l\x27ajustement. " ++ e)
                           isLoading := false }
        entered := true, called := true, committed := false }
    | Except.ok url =>
      match dataURLtoFile url ("ajustee-" ++ toString now ++ ".png") with
      | Except.error d =>
        { state := { s1 with error := some ("Échec de l\x27application de l\x27ajustement. " ++ d)
                             isLoading := false }
          entered := true, called := true, committed := false }
      | Except.ok f =>
        { state := { addImageToHistory s1 f with isLoading := false }
          entered := true, called := true, committed := true }

/-- The displayed image element as handleApplyCrop reads it: natural
dimensions of the bitmap and rendered dimensions of the element. -/
structure ImgEl where
  naturalWidth : ℚ
  naturalHeight : ℚ
  width : ℚ
  height : ℚ
deriving DecidableEq, Repr

/-- The raster emitted by handleApplyCrop: the final canvas dimensions (set
after the device-pixel-ratio resize), the uniform scale of the drawing
transform, and the drawImage source rectangle in natural-image coordinates
(scale factors are JavaScript divisions, so a zero rendered size propagates a
non-finite value). -/
structure Raster where
  width : ℚ
  height : ℚ
  transformScale : ℚ
  srcX : JSVal
  srcY : JSVal
  srcW : JSVal
  srcH : JSVal
deriving DecidableEq, Repr

/-- The raster handleApplyCrop builds from the completed crop, the image
element and the device pixel ratio dpr. -/
def mkRaster (c : PixelCrop) (image : ImgEl) (dpr : ℚ) : Raster :=
  let scaleX := jsDiv image.naturalWidth image.width
  let scaleY := jsDiv image.naturalHeight image.height
  { width := c.width * dpr
    height := c.height * dpr
    transformScale := dpr
    srcX := jsMulQ scaleX c.x
    srcY := jsMulQ scaleY c.y
    srcW := jsMulQ scaleX c.width
    srcH := jsMulQ scaleY c.height }

/-- The outcome of running handleApplyCrop: the resulting state, the raster
drawn when one was, whether addImageToHistory ran, and whether the handler
threw (only the never-taken decode branch of its fixed-header data URL). -/
structure CropResult where
  state : AppState
  raster : Option Raster
  committed : Bool
  threw : Bool
deriving DecidableEq, Repr

/-- handleApplyCrop, run to completion: a missing completed crop or image
element reports a selection error; a null 2d context reports a processing
error; otherwise the raster is drawn, encoded by the canvas into a PNG data
URL (its base64 payload passed in as pngData), decoded back into a File and
committed. -/
def handleApplyCropRun (s : AppState) (image : Option ImgEl) (dpr : ℚ)
    (ctxOk : Bool) (pngData : String) (now : ℕ) : CropResult :=
  match s.completedCrop, image with
  | some c, some img =>
    if ctxOk = true then
      let raster := mkRaster c img dpr
      match dataURLtoFile ("data:image/png;base64," ++ pngData)
          ("rognee-" ++ toString now ++ ".png") with
      | Except.ok f =>
        { state := addImageToHistory s f, raster := some raster
          committed := true, threw := false }
      | Except.error _ =>
        { state := s, raster := some raster, committed := false, threw := true }
    else
      { state := { s with error := some "Impossible de traiter le rognage." }
        raster := none, committed := false, threw := false }
  | _, _ =>
    { state := { s with error := some "Veuillez sélectionner une zone à rogner." }
      raster := none, committed := false, threw := false }

/-- A rejected click on a disabled control: nothing runs, nothing changes. -/
def rejected (s : AppState) : RunResult :=
  { state := s, entered := false, called := false, committed := false }

/-- The generate button: its disabled attribute is
isLoading or empty trimmed prompt or missing hotspot; a click on a disabled
button dispatches nothing, otherwise handleGenerate runs. -/
def clickGenerate (s : AppState) (svc : Except String String) (now : ℕ) :
    RunResult :=
  if s.isLoading = true ∨ s.prompt.trim = "" ∨ s.editHotspot = none then rejected s
  else handleGenerateRun s svc now

/-- The AdjustmentPanel apply button: disabled while isLoading or while the
trimmed active prompt is empty, and its click handler additionally requires a
truthy (non-empty) active prompt before invoking onApplyAdjustment. -/
def clickApplyAdjustment (s : AppState) (activePrompt : String)
    (svc : Except String String) (now : ℕ) : RunResult :=
  if s.isLoading = true ∨ activePrompt.trim = "" then rejected s
  else if activePrompt = "" then rejected s
  else handleApplyAdjustmentRun s svc now

/-- Modelled from the spec: the FilterPanel component is not under src/. Per
the spec concurrency guard, an edit request issued while an operation is in
flight is rejected, not queued; the panel receives isLoading and disables its
apply control accordingly. -/
def clickApplyFilter (s : AppState) (svc : Except String String)
    (now : ℕ) : RunResult :=
  if s.isLoading = true then rejected s
  else handleApplyFilterRun s svc now

/-- Modelled from the spec: the CropPanel component is not under src/. Per
the spec concurrency guard, an edit request issued while an operation is in
flight is rejected, not queued; the panel receives isLoading and disables its
apply control accordingly. -/
def clickApplyCrop (s : AppState) (image : Option ImgEl) (dpr : ℚ)
    (ctxOk : Bool) (pngData : String) (now : ℕ) : CropResult :=
  if s.isLoading = true then
    { state := s, raster := none, committed := false, threw := false }
  else handleApplyCropRun s image dpr ctxOk pngData now

/-- The inlineData of a response part: a MIME type and base64 image data. -/
structure InlineData where
  mimeType : String
  data : String
deriving DecidableEq, Repr

/-- One part of a candidate content: optionally inline image data,
optionally text. -/
structure GenPart where
  inlineData : Option InlineData
  text : Option String
deriving DecidableEq, Repr

/-- The content of a candidate: an optional list of parts (every level of
the response is optional, matching the optional chaining in the decoder). -/
structure GenContent where
  parts : Option (List GenPart)
deriving DecidableEq, Repr

/-- One response candidate: optional content and optional finish reason. -/
structure GenCandidate where
  content : Option GenContent
  finishReason : Option String
deriving DecidableEq, Repr

/-- The promptFeedback of a response: optional block reason and message. -/
structure PromptFeedback where
  blockReason : Option String
  blockReasonMessage : Option String
deriving DecidableEq, Repr

/-- A GenerateContentResponse as handleApiResponse reads it: optional prompt
feedback, optional candidate list, and the aggregated text accessor. -/
structure GenResponse where
  promptFeedback : Option PromptFeedback
  candidates : Option (List GenCandidate)
  text : Option String
deriving DecidableEq, Repr

/-- JavaScript truthiness of an optional string: undefined and the empty
string are falsy. -/
def strTruthy : Option String → Bool
  | none => false
  | some s => decide (s ≠ "")

/-- An optional string, or the empty string when it is falsy (the
JavaScript idiom x or two vertical bars or empty string). -/
def strOrEmpty : Option String → String
  | none => ""
  | some s => s

/-- response.promptFeedback?.blockReason. -/
def blockReasonOf (r : GenResponse) : Option String :=
  r.promptFeedback.bind PromptFeedback.blockReason

/-- response.promptFeedback?.blockReasonMessage. -/
def blockReasonMessageOf (r : GenResponse) : Option String :=
  r.promptFeedback.bind PromptFeedback.blockReasonMessage

/-- response.candidates?.[0]?.content?.parts?.find(part => part.inlineData),
then its inlineData: the first inline image payload of the first candidate,
when every link of the optional chain is present. -/
def firstImageData (r : GenResponse) : Option InlineData :=
  match r.candidates with
  | none => none
  | some cs =>
    match cs.head? with
    | none => none
    | some c =>
      match c.content with
      | none => none
      | some ct =>
        match ct.parts with
        | none => none
        | some ps =>
          match ps.find? (fun p => p.inlineData.isSome) with
          | none => none
          | some p => p.inlineData

/-- response.candidates?.[0]?.finishReason. -/
def finishReasonOf (r : GenResponse) : Option String :=
  match r.candidates with
  | none => none
  | some cs =>
    match cs.head? with
    | none => none
    | some c => c.finishReason

/-- The error message thrown when the prompt was blocked. -/
def blockedMsg (r : GenResponse) : String :=
  "La requête a été bloquée. Raison : " ++ strOrEmpty (blockReasonOf r) ++ ". "
    ++ strOrEmpty (blockReasonMessageOf r)

/-- The error message thrown on an unexpected finish reason. -/
def stopMsg (r : GenResponse) (context : String) : String :=
  "La génération d\x27image pour " ++ context
    ++ " s\x27est arrêtée de manière inattendue. Raison : "
    ++ strOrEmpty (finishReasonOf r)
    ++ ". Ceci est souvent lié aux paramètres de sécurité."

/-- The error message thrown when no image part came back, carrying the
model text feedback when its trimmed value is truthy. -/
def noImageMsg (r : GenResponse) (context : String) : String :=
  let textFeedback := (r.text.map String.trim)
  "Le modèle d\x27IA n\x27a pas retourné d\x27image pour " ++ context ++ ". "
    ++ (if strTruthy textFeedback then
          "Le modèle a répondu avec du texte : \"" ++ strOrEmpty textFeedback ++ "\""
        else
          "Cela peut se produire en raison des filtres de sécurité ou si la demande est trop complexe. Veuillez essayer de reformuler votre instruction pour être plus direct.")

/-- handleApiResponse: a truthy block reason throws first; then the first
inline image part of the first candidate, when present, yields the data URL;
then a truthy finish reason other than STOP throws the unexpected-stop error;
otherwise the no-image error is thrown, optionally carrying text feedback. -/
def handleApiResponse (r : GenResponse) (context : String) :
    Except String String :=
  if strTruthy (blockReasonOf r) then
    Except.error (blockedMsg r)
  else
    match firstImageData r with
    | some d => Except.ok ("data:" ++ d.mimeType ++ ";base64," ++ d.data)
    | none =>
      if strTruthy (finishReasonOf r) ∧ finishReasonOf r ≠ some "STOP" then
        Except.error (stopMsg r context)
      else
        Except.error (noImageMsg r context)

/-! Concrete fixtures used by the counterexamples and witnesses. -/

/-- A concrete snapshot. -/
def fileA : JSFile := { name := "A.png", mime := "image/png", data := "aa" }

/-- A concrete snapshot. -/
def fileB : JSFile := { name := "B.png", mime := "image/png", data := "bb" }

/-- A concrete snapshot. -/
def fileC : JSFile := { name := "C.png", mime := "image/png", data := "cc" }

/-- A concrete snapshot. -/
def fileD : JSFile := { name := "D.png", mime := "image/png", data := "dd" }

/-- A state with history [A, B, C] at cursor 2, retouch tab, not loading. -/
def exState : AppState :=
  { history := [fileA, fileB, fileC]
    historyIndex := 2
    prompt := ""
    isLoading := false
    error := none
    editHotspot := none
    displayHotspot := none
    activeTab := Tab.retouch
    crop := none
    completedCrop := none
    isSideBySide := false }

/-- The startup state: empty history, cursor -1. -/
def emptyState : AppState :=
  { history := []
    historyIndex := -1
    prompt := ""
    isLoading := false
    error := none
    editHotspot := none
    displayHotspot := none
    activeTab := Tab.retouch
    crop := none
    completedCrop := none
    isSideBySide := false }

/-- A state holding both a hotspot and a pending crop selection. -/
def hotspotState : AppState :=
  { history := [fileA, fileB]
    historyIndex := 1
    prompt := "p"
    isLoading := false
    error := none
    editHotspot := some { x := JSVal.num 3, y := JSVal.num 4 }
    displayHotspot := some { x := 3, y := 4 }
    activeTab := Tab.retouch
    crop := some { x := 0, y := 0, width := 5, height := 5 }
    completedCrop := some { x := 0, y := 0, width := 5, height := 5 }
    isSideBySide := false }

/-- A state on the crop tab with a 100 by 100 completed crop selection. -/
def cropState : AppState :=
  { history := [fileA]
    historyIndex := 0
    prompt := ""
    isLoading := false
    error := none
    editHotspot := none
    displayHotspot := none
    activeTab := Tab.crop
    crop := none
    completedCrop := some { x := 0, y := 0, width := 100, height := 100 }
    isSideBySide := false }

/-- An image displayed at half its natural size: scale factor 2. -/
def scaledImg : ImgEl :=
  { naturalWidth := 2000, naturalHeight := 2000, width := 1000, height := 1000 }

/-- A state with an operation in flight. -/
def loadingState : AppState :=
  { hotspotState with isLoading := true }

/-- A concrete successful response: no prompt feedback, one candidate whose
first part is an inline PNG. -/
def okResponse : GenResponse :=
  { promptFeedback := none
    candidates := some
      [{ content := some
           { parts := some
               [{ inlineData := some { mimeType := "image/png", data := "abc" }
                  text := none }] }
         finishReason := some "STOP" }]
    text := none }

/-- The same response with a SAFETY block reason added. -/
def blockedResponse : GenResponse :=
  { okResponse with
    promptFeedback := some { blockReason := some "SAFETY", blockReasonMessage := none } }

/-! Claim theorems. -/

/-- Claim C1: for every state with an image loaded (cursor at least 0),
addImageToHistory replaces the sequence by its prefix up to the cursor
followed by the new snapshot and sets the cursor to the new last index, so
the cursor equals length minus one immediately after every commit; from
history [A, B, C] at cursor 2, undo then commit of D yields [A, B, D] at
cursor 2 with C unreachable via redo. -/
theorem commit_truncates_and_pins_cursor (s : AppState) (f : JSFile)
    (h : 0 ≤ s.historyIndex) :
    (addImageToHistory s f).history
        = s.history.take (s.historyIndex + 1).toNat ++ [f]
    ∧ (addImageToHistory s f).historyIndex
        = ((addImageToHistory s f).history.length : ℤ) - 1
    ∧ (addImageToHistory (handleUndo exState) fileD).history = [fileA, fileB, fileD]
    ∧ (addImageToHistory (handleUndo exState) fileD).historyIndex = 2
    ∧ canRedo (addImageToHistory (handleUndo exState) fileD) = false := by
  refine ⟨rfl, rfl, by decide, by decide, by decide⟩

/-- Witness for C1 at the concrete state [A, B, C] with cursor 2. -/
theorem commit_truncates_and_pins_cursor_witness :
    (0 : ℤ) ≤ exState.historyIndex
    ∧ ((addImageToHistory exState fileD).history
        = exState.history.take (exState.historyIndex + 1).toNat ++ [fileD]
      ∧ (addImageToHistory exState fileD).historyIndex
          = ((addImageToHistory exState fileD).history.length : ℤ) - 1
      ∧ (addImageToHistory (handleUndo exState) fileD).history = [fileA, fileB, fileD]
      ∧ (addImageToHistory (handleUndo exState) fileD).historyIndex = 2
      ∧ canRedo (addImageToHistory (handleUndo exState) fileD) = false) :=
  ⟨by decide, commit_truncates_and_pins_cursor exState fileD (by decide)⟩

/-- Claim C2 counterexample: at cursor -1 (no image loaded) the commit
operation does not fail and does not leave the history empty; it appends the
snapshot, producing the singleton history with cursor 0. -/
theorem commit_at_empty_appends :
    (addImageToHistory emptyState fileD).history = [fileD]
    ∧ (addImageToHistory emptyState fileD).historyIndex = 0 := by
  decide

/-- Claim C2 as amended: the commit operation itself is total and never
signals an error; at cursor -1 it appends the snapshot as a singleton history
with cursor 0, exactly like a load; the no-image rejection is enforced
upstream by the edit request handlers, which report a validation error and
leave the history unchanged without committing; whenever an image is loaded
commit succeeds with the truncate-append result. -/
theorem commit_total_rejection_upstream (s : AppState) (f : JSFile)
    (svc : Except String String) (now : ℕ) :
    (addImageToHistory s f).history
        = s.history.take (s.historyIndex + 1).toNat ++ [f]
    ∧ (s.historyIndex = -1 →
        (addImageToHistory s f).history = [f]
      ∧ (addImageToHistory s f).historyIndex = 0)
    ∧ (currentImage s = none →
        (handleGenerateRun s svc now).entered = false
      ∧ (handleGenerateRun s svc now).called = false
      ∧ (handleGenerateRun s svc now).committed = false
      ∧ (handleGenerateRun s svc now).state.history = s.history
      ∧ (handleGenerateRun s svc now).state.historyIndex = s.historyIndex
      ∧ (handleGenerateRun s svc now).state.error
          = some "Aucune image chargée à modifier.") := by
  refine ⟨rfl, ?_, ?_⟩
  · intro h
    simp [addImageToHistory, h]
  · intro h
    simp [handleGenerateRun, h]

/-- Witness for the amended C2 at the empty startup state. -/
theorem commit_total_rejection_upstream_witness :
    (addImageToHistory emptyState fileD).history = [fileD]
    ∧ (handleGenerateRun emptyState (Except.error "x") 0).entered = false
    ∧ (handleGenerateRun emptyState (Except.error "x") 0).state.history = [] := by
  have h := commit_total_rejection_upstream emptyState fileD (Except.error "x") 0
  exact ⟨(h.2.1 (by decide)).1, (h.2.2 (by decide)).1, (h.2.2 (by decide)).2.2.2.1⟩

/-- Helper: any run of the generate handler that does not commit leaves the
history sequence and the cursor unchanged. -/
theorem gen_uncommitted_keeps_history (s : AppState) (svc : Except String String)
    (now : ℕ) (h : (handleGenerateRun s svc now).committed = false) :
    (handleGenerateRun s svc now).state.history = s.history
    ∧ (handleGenerateRun s svc now).state.historyIndex = s.historyIndex := by
  by_cases h1 : currentImage s = none
  · simp [handleGenerateRun, h1]
  · by_cases h2 : s.prompt.trim = ""
    · simp [handleGenerateRun, h1, h2]
    · by_cases h3 : s.editHotspot = none
      · simp [handleGenerateRun, h1, h2, h3]
      · cases svc with
        | error e => simp [handleGenerateRun, h1, h2, h3]
        | ok url =>
          cases hd : dataURLtoFile url ("modifiee-" ++ toString now ++ ".png") with
          | error d => simp [handleGenerateRun, h1, h2, h3, hd]
          | ok f =>
            exfalso
            simp [handleGenerateRun, h1, h2, h3, hd] at h

/-- Helper: any run of the filter handler that does not commit leaves the
history sequence and the cursor unchanged. -/
theorem filter_uncommitted_keeps_history (s : AppState)
    (svc : Except String String) (now : ℕ)
    (h : (handleApplyFilterRun s svc now).committed = false) :
    (handleApplyFilterRun s svc now).state.history = s.history
    ∧ (handleApplyFilterRun s svc now).state.historyIndex = s.historyIndex := by
  by_cases h1 : currentImage s = none
  · simp [handleApplyFilterRun, h1]
  · cases svc with
    | error e => simp [handleApplyFilterRun, h1]
    | ok url =>
      cases hd : dataURLtoFile url ("filtree-" ++ toString now ++ ".png") with
      | error d => simp [handleApplyFilterRun, h1, hd]
      | ok f =>
        exfalso
        simp [handleApplyFilterRun, h1, hd] at h

/-- Helper: any run of the adjustment handler that does not commit leaves the
history sequence and the cursor unchanged. -/
theorem adjust_uncommitted_keeps_history (s : AppState)
    (svc : Except String String) (now : ℕ)
    (h : (handleApplyAdjustmentRun s svc now).committed = false) :
    (handleApplyAdjustmentRun s svc now).state.history = s.history
    ∧ (handleApplyAdjustmentRun s svc now).state.historyIndex = s.historyIndex := by
  by_cases h1 : currentImage s = none
  · simp [handleApplyAdjustmentRun, h1]
  · cases svc with
    | error e => simp [handleApplyAdjustmentRun, h1]
    | ok url =>
      cases hd : dataURLtoFile url ("ajustee-" ++ toString now ++ ".png") with
      | error d => simp [handleApplyAdjustmentRun, h1, hd]
      | ok f =>
        exfalso
        simp [handleApplyAdjustmentRun, h1, hd] at h

/-- Helper: any run of the crop handler that does not commit leaves the
history sequence and the cursor unchanged. -/
theorem crop_uncommitted_keeps_history (s : AppState) (image : Option ImgEl)
    (dpr : ℚ) (ctxOk : Bool) (png : String) (now : ℕ)
    (h : (handleApplyCropRun s image dpr ctxOk png now).committed = false) :
    (handleApplyCropRun s image dpr ctxOk png now).state.history = s.history
    ∧ (handleApplyCropRun s image dpr ctxOk png now).state.historyIndex
        = s.historyIndex := by
  cases hc : s.completedCrop with
  | none => simp [handleApplyCropRun, hc]
  | some c =>
    cases image with
    | none => simp [handleApplyCropRun, hc]
    | some img =>
      cases hk : ctxOk with
      | false => simp [handleApplyCropRun, hc, hk]
      | true =>
        cases hd : dataURLtoFile ("data:image/png;base64," ++ png)
            ("rognee-" ++ toString now ++ ".png") with
        | error d => simp [handleApplyCropRun, hc, hk, hd]
        | ok f =>
          exfalso
          simp [handleApplyCropRun, hc, hk, hd] at h

/-- Claim C3: every failing edit request leaves the history sequence and the
cursor unchanged; a validation failure (no current image, empty trimmed
instruction, or missing hotspot for retouch) is reported without entering the
in-flight phase or dispatching the external call; a service rejection or a
decode failure surfaces its reason behind the operation prefix and returns
isLoading to false, with no snapshot committed in either case. -/
theorem failing_edits_leave_history_untouched
    (s : AppState) (svc : Except String String) (now : ℕ)
    (image : Option ImgEl) (dpr : ℚ) (ctxOk : Bool) (png : String) :
    ((handleGenerateRun s svc now).committed = false →
        (handleGenerateRun s svc now).state.history = s.history
      ∧ (handleGenerateRun s svc now).state.historyIndex = s.historyIndex)
    ∧ ((handleApplyFilterRun s svc now).committed = false →
        (handleApplyFilterRun s svc now).state.history = s.history
      ∧ (handleApplyFilterRun s svc now).state.historyIndex = s.historyIndex)
    ∧ ((handleApplyAdjustmentRun s svc now).committed = false →
        (handleApplyAdjustmentRun s svc now).state.history = s.history
      ∧ (handleApplyAdjustmentRun s svc now).state.historyIndex = s.historyIndex)
    ∧ ((handleApplyCropRun s image dpr ctxOk png now).committed = false →
        (handleApplyCropRun s image dpr ctxOk png now).state.history = s.history
      ∧ (handleApplyCropRun s image dpr ctxOk png now).state.historyIndex
          = s.historyIndex)
    ∧ (currentImage s = none ∨ s.prompt.trim = "" ∨ s.editHotspot = none →
        (handleGenerateRun s svc now).entered = false
      ∧ (handleGenerateRun s svc now).called = false
      ∧ (handleGenerateRun s svc now).state.error ≠ none
      ∧ (handleGenerateRun s svc now).state.isLoading = s.isLoading)
    ∧ (∀ e, currentImage s ≠ none → s.prompt.trim ≠ "" → s.editHotspot ≠ none →
        svc = Except.error e →
        (handleGenerateRun s svc now).entered = true
      ∧ (handleGenerateRun s svc now).committed = false
      ∧ (handleGenerateRun s svc now).state.isLoading = false
      ∧ (handleGenerateRun s svc now).state.error
          = some ("Échec de la génération de l\x27image. " ++ e))
    ∧ (∀ u d, currentImage s ≠ none → s.prompt.trim ≠ "" → s.editHotspot ≠ none →
        svc = Except.ok u →
        dataURLtoFile u ("modifiee-" ++ toString now ++ ".png") = Except.error d →
        (handleGenerateRun s svc now).entered = true
      ∧ (handleGenerateRun s svc now).committed = false
      ∧ (handleGenerateRun s svc now).state.isLoading = false
      ∧ (handleGenerateRun s svc now).state.error
          = some ("Échec de la génération de l\x27image. " ++ d)) := by
  refine ⟨gen_uncommitted_keeps_history s svc now,
          filter_uncommitted_keeps_history s svc now,
          adjust_uncommitted_keeps_history s svc now,
          crop_uncommitted_keeps_history s image dpr ctxOk png now,
          ?_, ?_, ?_⟩
  · intro hv
    unfold handleGenerateRun
    rcases hv with hv | hv | hv
    · simp [hv]
    · by_cases hc : currentImage s = none <;> simp [hc, hv]
    · by_cases hc : currentImage s = none
      · simp [hc]
      · by_cases hp : s.prompt.trim = "" <;> simp [hc, hp, hv]
  · intro e hc hp hh hsvc
    subst hsvc
    simp [handleGenerateRun, hc, hp, hh]
  · intro u d hc hp hh hsvc hdec
    subst hsvc
    simp [handleGenerateRun, hc, hp, hh, hdec]

/-- Witness for C3: the generate handler run from the empty state with a
rejecting service reports a validation error without entering, calling or
committing, and leaves the empty history and cursor -1 unchanged. -/
theorem failing_edits_leave_history_untouched_witness :
    (handleGenerateRun emptyState (Except.error "boom") 0).committed = false
    ∧ (handleGenerateRun emptyState (Except.error "boom") 0).state.history = []
    ∧ (handleGenerateRun emptyState (Except.error "boom") 0).state.historyIndex = -1
    ∧ (handleGenerateRun emptyState (Except.error "boom") 0).entered = false := by
  have h := failing_edits_leave_history_untouched emptyState (Except.error "boom") 0
    none 1 true "png"
  have hv := h.2.2.2.2.1 (Or.inl (by decide))
  have hu := h.1 (by decide)
  exact ⟨by decide, hu.1, hu.2, hv.1⟩

/-- Claim C4: while an operation is in flight (isLoading), a click on any of
the four edit entry points is rejected rather than queued: the state is
returned unchanged (so the in-flight kind is unchanged), no external call is
dispatched and no snapshot is committed. -/
theorem inflight_requests_rejected (s : AppState) (svc : Except String String)
    (now : ℕ) (ap : String) (image : Option ImgEl) (dpr : ℚ) (ctxOk : Bool)
    (png : String) (h : s.isLoading = true) :
    clickGenerate s svc now = rejected s
    ∧ clickApplyFilter s svc now = rejected s
    ∧ clickApplyAdjustment s ap svc now = rejected s
    ∧ clickApplyCrop s image dpr ctxOk png now
        = { state := s, raster := none, committed := false, threw := false } := by
  refine ⟨?_, ?_, ?_, ?_⟩
  · simp [clickGenerate, h]
  · simp [clickApplyFilter, h]
  · simp [clickApplyAdjustment, h]
  · simp [clickApplyCrop, h]

/-- Witness for C4 at a concrete in-flight state. -/
theorem inflight_requests_rejected_witness :
    loadingState.isLoading = true
    ∧ (clickGenerate loadingState (Except.error "x") 0 = rejected loadingState
      ∧ clickApplyFilter loadingState (Except.error "x") 0 = rejected loadingState
      ∧ clickApplyAdjustment loadingState "p" (Except.error "x") 0
          = rejected loadingState
      ∧ clickApplyCrop loadingState (some scaledImg) 2 true "png" 0
          = { state := loadingState, raster := none
              committed := false, threw := false }) :=
  ⟨by decide, inflight_requests_rejected loadingState (Except.error "x") 0 "p"
    (some scaledImg) 2 true "png" (by decide)⟩

/-- Claim C5 counterexample: undo is a cursor-changing history operation yet
leaves the pending crop region in place, and a tab switch leaves the hotspot
in place. -/
theorem undo_keeps_crop_tab_switch_keeps_hotspot :
    (handleUndo hotspotState).historyIndex = 0
    ∧ (handleUndo hotspotState).completedCrop
        = some { x := 0, y := 0, width := 5, height := 5 }
    ∧ (handleTabChange hotspotState Tab.adjust).editHotspot
        = some { x := JSVal.num 3, y := JSVal.num 4 } := by
  decide

/-- Claim C5 as amended: commit invalidates the pending crop region (both
crop fields) but leaves the hotspot fields unchanged — the retouch flow
clears the hotspot separately after a successful commit; undo, redo and reset
invalidate the hotspot; reset additionally invalidates the pending crop
region; undo and redo leave the pending crop region unchanged and a tab
switch clears neither. -/
theorem transient_state_invalidation (s : AppState) (f : JSFile) (tab : Tab) :
    (addImageToHistory s f).crop = none
    ∧ (addImageToHistory s f).completedCrop = none
    ∧ (addImageToHistory s f).editHotspot = s.editHotspot
    ∧ (canUndo s = true →
        (handleUndo s).editHotspot = none
      ∧ (handleUndo s).displayHotspot = none
      ∧ (handleUndo s).completedCrop = s.completedCrop)
    ∧ (canRedo s = true →
        (handleRedo s).editHotspot = none
      ∧ (handleRedo s).displayHotspot = none
      ∧ (handleRedo s).completedCrop = s.completedCrop)
    ∧ (0 < s.history.length →
        (handleReset s true).editHotspot = none
      ∧ (handleReset s true).displayHotspot = none
      ∧ (handleReset s true).crop = none
      ∧ (handleReset s true).completedCrop = none)
    ∧ (handleTabChange s tab).editHotspot = s.editHotspot
    ∧ (handleTabChange s tab).completedCrop = s.completedCrop
    ∧ (∀ svc now, (handleGenerateRun s svc now).committed = true →
        (handleGenerateRun s svc now).state.editHotspot = none
      ∧ (handleGenerateRun s svc now).state.displayHotspot = none) := by
  refine ⟨rfl, rfl, rfl, ?_, ?_, ?_, ?_, ?_, ?_⟩
  · intro h
    simp [handleUndo, h]
  · intro h
    simp [handleRedo, h]
  · intro h
    simp [handleReset, h]
  · unfold handleTabChange
    split <;> rfl
  · unfold handleTabChange
    split <;> rfl
  · intro svc now h
    by_cases h1 : currentImage s = none
    · simp [handleGenerateRun, h1] at h
    · by_cases h2 : s.prompt.trim = ""
      · simp [handleGenerateRun, h1, h2] at h
      · by_cases h3 : s.editHotspot = none
        · simp [handleGenerateRun, h1, h2, h3] at h
        · cases svc with
          | error e => simp [handleGenerateRun, h1, h2, h3] at h
          | ok url =>
            cases hd : dataURLtoFile url ("modifiee-" ++ toString now ++ ".png") with
            | error d => simp [handleGenerateRun, h1, h2, h3, hd] at h
            | ok g => simp [handleGenerateRun, h1, h2, h3, hd]

/-- Witness for the amended C5 at the concrete state holding a hotspot and a
pending crop selection. -/
theorem transient_state_invalidation_witness :
    canUndo hotspotState = true
    ∧ (0 : ℕ) < hotspotState.history.length
    ∧ (addImageToHistory hotspotState fileD).completedCrop = none
    ∧ (handleUndo hotspotState).editHotspot = none
    ∧ (handleReset hotspotState true).completedCrop = none := by
  have h := transient_state_invalidation hotspotState fileD Tab.adjust
  exact ⟨by decide, by decide, h.2.1,
    (h.2.2.2.1 (by decide)).1, (h.2.2.2.2.2.1 (by decide)).2.2.2⟩

/-- Claim C6 counterexample: with a 100 by 100 crop selection on an image
displayed at half its natural size (scale factor 2) and device pixel ratio 2,
the crop region measures 200 by 200 in native pixels, so the claim predicts a
400 by 400 raster; the code emits a 200 by 200 raster (displayed size times
the ratio, not native size times the ratio). -/
theorem crop_raster_ignores_native_scale :
    ((handleApplyCropRun cropState (some scaledImg) 2 true "png" 0).raster.map
        Raster.width) = some 200
    ∧ (100 * (scaledImg.naturalWidth / scaledImg.width)) * 2 = 400
    ∧ ((200 : ℚ) ≠ 400) := by
  refine ⟨?_, by norm_num [scaledImg], by norm_num⟩
  have hr : (handleApplyCropRun cropState (some scaledImg) 2 true "png" 0).raster
      = some (mkRaster { x := 0, y := 0, width := 100, height := 100 } scaledImg 2) := by
    simp [handleApplyCropRun, cropState]
    split <;> rfl
  rw [hr]
  simp [mkRaster]
  norm_num

/-- Claim C6 as amended: the output raster dimensions equal the crop region
size in displayed pixels multiplied by the device pixel ratio, and the
drawing transform is scaled by that same ratio; this coincides with native
size times the ratio exactly when the image is displayed at its natural size;
a 100 by 100 region at ratio 2 yields a 200 by 200 raster. -/
theorem crop_raster_dims (s : AppState) (c : PixelCrop) (img : ImgEl)
    (dpr : ℚ) (png : String) (now : ℕ) (hc : s.completedCrop = some c) :
    (handleApplyCropRun s (some img) dpr true png now).raster
        = some (mkRaster c img dpr)
    ∧ (mkRaster c img dpr).width = c.width * dpr
    ∧ (mkRaster c img dpr).height = c.height * dpr
    ∧ (mkRaster c img dpr).transformScale = dpr
    ∧ (mkRaster { x := 0, y := 0, width := 100, height := 100 } img 2).width = 200
    ∧ (mkRaster { x := 0, y := 0, width := 100, height := 100 } img 2).height = 200 := by
  refine ⟨?_, rfl, rfl, rfl, by norm_num [mkRaster], by norm_num [mkRaster]⟩
  cases hd : dataURLtoFile ("data:image/png;base64," ++ png)
      ("rognee-" ++ toString now ++ ".png") with
  | error d => simp [handleApplyCropRun, hc, hd]
  | ok f => simp [handleApplyCropRun, hc, hd]

/-- Witness for the amended C6 at the concrete crop state. -/
theorem crop_raster_dims_witness :
    cropState.completedCrop
        = some { x := 0, y := 0, width := 100, height := 100 }
    ∧ (handleApplyCropRun cropState (some scaledImg) 2 true "png" 0).raster
        = some (mkRaster { x := 0, y := 0, width := 100, height := 100 } scaledImg 2)
    ∧ (mkRaster { x := 0, y := 0, width := 100, height := 100 } scaledImg 2).width
        = 200 :=
  ⟨by decide,
    (crop_raster_dims cropState { x := 0, y := 0, width := 100, height := 100 }
      scaledImg 2 "png" 0 (by decide)).1,
    (crop_raster_dims cropState { x := 0, y := 0, width := 100, height := 100 }
      scaledImg 2 "png" 0 (by decide)).2.2.2.2.1⟩

/-- Helper: evaluate jround by bracketing its argument plus one half. -/
theorem jround_eval (q : ℚ) (z : ℤ) (h1 : (z : ℚ) ≤ q + 1 / 2)
    (h2 : q + 1 / 2 < z + 1) : jround q = z := by
  rw [jround, Int.floor_eq_iff]
  exact ⟨h1, h2⟩

/-- Claim C7: with the retouch tab active, no operation in flight and a
nonzero rendered size, a click at client coordinates maps the
pointer-relative position to the native point by rounding
pointer over rendered times natural in each axis, and the display hotspot is
the raw pointer-relative offset. -/
theorem image_click_to_native
    (s : AppState) (clientX clientY : ℚ) (rect : Rect) (nw nh : ℚ)
    (htab : s.activeTab = Tab.retouch) (hload : s.isLoading = false)
    (hw : rect.width ≠ 0) (hh : rect.height ≠ 0) :
    (handleImageClick s clientX clientY rect nw nh).editHotspot
      = some { x := JSVal.num ((jround ((clientX - rect.left) / rect.width * nw) : ℤ) : ℚ)
               y := JSVal.num ((jround ((clientY - rect.top) / rect.height * nh) : ℤ) : ℚ) }
    ∧ (handleImageClick s clientX clientY rect nw nh).displayHotspot
      = some { x := clientX - rect.left, y := clientY - rect.top } := by
  constructor <;>
    simp [handleImageClick, htab, hload, jsDiv, hw, hh, jsMulQ, jsRound]

/-- Witness for C7: native size 2000 by 1000 rendered at 1000 by 500, a click
at rendered position (500, 250) maps to native point (1000, 500). -/
theorem image_click_to_native_witness :
    exState.activeTab = Tab.retouch
    ∧ exState.isLoading = false
    ∧ (handleImageClick exState 500 250
          { left := 0, top := 0, width := 1000, height := 500 } 2000 1000).editHotspot
        = some { x := JSVal.num 1000, y := JSVal.num 500 } := by
  refine ⟨rfl, rfl, ?_⟩
  have h := (image_click_to_native exState 500 250
    { left := 0, top := 0, width := 1000, height := 500 } 2000 1000
    rfl rfl (by norm_num) (by norm_num)).1
  rw [h]
  have hx : jround ((500 - (0 : ℚ)) / 1000 * 2000) = 1000 :=
    jround_eval _ _ (by norm_num) (by norm_num)
  have hy : jround ((250 - (0 : ℚ)) / 500 * 1000) = 500 :=
    jround_eval _ _ (by norm_num) (by norm_num)
  rw [hx, hy]
  norm_num

/-- Claim C8 counterexample: with a zero rendered size the click handler does
not skip the hotspot update; it stores an ill-defined (non-finite) hotspot,
where the state previously held none. -/
theorem zero_size_click_still_updates :
    (handleImageClick exState 5 6 { left := 0, top := 0, width := 0, height := 0 }
        100 100).editHotspot
      = some { x := JSVal.nonfinite, y := JSVal.nonfinite }
    ∧ (handleImageClick exState 5 6 { left := 0, top := 0, width := 0, height := 0 }
        100 100).editHotspot ≠ exState.editHotspot := by
  decide

/-- Claim C8 as amended: the pointer-to-native conversion has no
division-by-zero guard. With the retouch tab active and no operation in
flight, a zero rendered width still updates the hotspot and makes its x
coordinate non-finite (a zero rendered height does the same to y); the update
is skipped only when the active tab is not retouch or an operation is in
flight. -/
theorem zero_rendered_size_unguarded
    (s : AppState) (clientX clientY : ℚ) (rect : Rect) (nw nh : ℚ) :
    (s.activeTab = Tab.retouch → s.isLoading = false → rect.width = 0 →
      (handleImageClick s clientX clientY rect nw nh).editHotspot
        = some { x := JSVal.nonfinite
                 y := jsRound (jsMulQ (jsDiv (clientY - rect.top) rect.height) nh) })
    ∧ (s.activeTab = Tab.retouch → s.isLoading = false → rect.height = 0 →
      (handleImageClick s clientX clientY rect nw nh).editHotspot
        = some { x := jsRound (jsMulQ (jsDiv (clientX - rect.left) rect.width) nw)
                 y := JSVal.nonfinite })
    ∧ (s.activeTab ≠ Tab.retouch ∨ s.isLoading = true →
        handleImageClick s clientX clientY rect nw nh = s) := by
  refine ⟨?_, ?_, ?_⟩
  · intro htab hload hw
    simp [handleImageClick, htab, hload, jsDiv, hw, jsMulQ, jsRound]
  · intro htab hload hh
    simp [handleImageClick, htab, hload, jsDiv, hh, jsMulQ, jsRound]
  · intro hskip
    simp [handleImageClick, hskip]

/-- Witness for the amended C8 at a concrete zero-width rect. -/
theorem zero_rendered_size_unguarded_witness :
    (handleImageClick exState 5 6 { left := 0, top := 0, width := 0, height := 0 }
        100 100).editHotspot
      = some { x := JSVal.nonfinite, y := JSVal.nonfinite }
    ∧ handleImageClick loadingState 5 6
        { left := 0, top := 0, width := 10, height := 10 } 100 100 = loadingState := by
  have h := zero_rendered_size_unguarded exState 5 6
    { left := 0, top := 0, width := 0, height := 0 } 100 100
  have h2 := zero_rendered_size_unguarded loadingState 5 6
    { left := 0, top := 0, width := 10, height := 10 } 100 100
  refine ⟨?_, h2.2.2 (Or.inr (by decide))⟩
  have hx := h.1 rfl rfl rfl
  rw [hx]
  decide

/-- Helper: iterating redo j times from a cursor that stays within range
advances the cursor by exactly j and never changes the sequence. -/
theorem redo_iter_cursor (j : ℕ) (s : AppState)
    (h : s.historyIndex + j ≤ (s.history.length : ℤ) - 1) :
    (handleRedo^[j] s).historyIndex = s.historyIndex + j
    ∧ (handleRedo^[j] s).history = s.history := by
  induction j generalizing s with
  | zero => simp
  | succ n ih =>
    have hcan : canRedo s = true := by
      unfold canRedo
      apply decide_eq_true
      omega
    have hidx : (handleRedo s).historyIndex = s.historyIndex + 1 := by
      simp [handleRedo, hcan]
    have hhist : (handleRedo s).history = s.history := by
      simp [handleRedo, hcan]
    rw [Function.iterate_succ_apply]
    have hle : (handleRedo s).historyIndex + n
        ≤ ((handleRedo s).history.length : ℤ) - 1 := by
      rw [hidx, hhist]
      push_cast at h ⊢
      omega
    have hih := ih (handleRedo s) hle
    rw [hih.1, hih.2, hidx, hhist]
    refine ⟨?_, rfl⟩
    push_cast
    omega

/-- Claim C9: for every non-empty history with an in-range cursor, reset
moves the cursor to 0 without truncating the sequence and is idempotent;
iterating redo cursor-many times afterwards restores the pre-reset cursor
position; and a commit after reset truncates from cursor 0 onward, leaving
exactly the original followed by the new snapshot. -/
theorem reset_keeps_sequence (s : AppState) (f : JSFile)
    (hne : 0 < s.history.length)
    (hlo : 0 ≤ s.historyIndex)
    (hhi : s.historyIndex ≤ (s.history.length : ℤ) - 1) :
    (handleReset s true).historyIndex = 0
    ∧ (handleReset s true).history = s.history
    ∧ handleReset (handleReset s true) true = handleReset s true
    ∧ (handleRedo^[s.historyIndex.toNat] (handleReset s true)).historyIndex
        = s.historyIndex
    ∧ (addImageToHistory (handleReset s true) f).history
        = s.history.take 1 ++ [f] := by
  have hr : handleReset s true
      = { s with historyIndex := 0, error := none, editHotspot := none
                 displayHotspot := none, crop := none, completedCrop := none } := by
    simp [handleReset, hne]
  refine ⟨by rw [hr], by rw [hr], ?_, ?_, ?_⟩
  · rw [hr]
    simp [handleReset, hne]
  · rw [hr]
    have := redo_iter_cursor s.historyIndex.toNat
      { s with historyIndex := 0, error := none, editHotspot := none
               displayHotspot := none, crop := none, completedCrop := none }
      (by simp; omega)
    rw [this.1]
    simp
    omega
  · rw [hr]
    simp [addImageToHistory]

/-- Witness for C9 at the concrete state [A, B, C] with cursor 2. -/
theorem reset_keeps_sequence_witness :
    (0 : ℕ) < exState.history.length
    ∧ (handleReset exState true).historyIndex = 0
    ∧ (handleReset exState true).history = [fileA, fileB, fileC]
    ∧ (handleRedo^[2] (handleReset exState true)).historyIndex = 2
    ∧ (addImageToHistory (handleReset exState true) fileD).history
        = [fileA, fileD] := by
  have h := reset_keeps_sequence exState fileD (by decide) (by decide) (by decide)
  exact ⟨by decide, h.1, h.2.1, h.2.2.2.1, h.2.2.2.2⟩

/-- Claim C10: decoding a raw service response succeeds, yielding a data-URL
image, exactly when the response carries no (truthy) prompt-block reason and
its first candidate contains an inline image part; a block reason throws even
when an image part is also present; with no image part, a truthy finish
reason other than STOP yields the unexpected-stop error, and otherwise the
no-image error is thrown, carrying the model text feedback when its trimmed
value is non-empty. -/
theorem api_response_decoding (r : GenResponse) (context : String) :
    ((∃ u, handleApiResponse r context = Except.ok u)
        ↔ strTruthy (blockReasonOf r) = false ∧ (firstImageData r).isSome = true)
    ∧ (strTruthy (blockReasonOf r) = true →
        handleApiResponse r context = Except.error (blockedMsg r))
    ∧ (∀ d, strTruthy (blockReasonOf r) = false → firstImageData r = some d →
        handleApiResponse r context
          = Except.ok ("data:" ++ d.mimeType ++ ";base64," ++ d.data))
    ∧ (strTruthy (blockReasonOf r) = false → firstImageData r = none →
        strTruthy (finishReasonOf r) = true → finishReasonOf r ≠ some "STOP" →
        handleApiResponse r context = Except.error (stopMsg r context))
    ∧ (strTruthy (blockReasonOf r) = false → firstImageData r = none →
        ¬(strTruthy (finishReasonOf r) = true ∧ finishReasonOf r ≠ some "STOP") →
        handleApiResponse r context = Except.error (noImageMsg r context)) := by
  by_cases hb : strTruthy (blockReasonOf r) = true
  · refine ⟨?_, fun _ => by simp [handleApiResponse, hb], ?_, ?_, ?_⟩
    · constructor
      · rintro ⟨u, hu⟩
        simp [handleApiResponse, hb] at hu
      · rintro ⟨hfalse, _⟩
        rw [hb] at hfalse
        cases hfalse
    · intro d hfalse
      rw [hb] at hfalse
      cases hfalse
    · intro hfalse
      rw [hb] at hfalse
      cases hfalse
    · intro hfalse
      rw [hb] at hfalse
      cases hfalse
  · have hb' : strTruthy (blockReasonOf r) = false := by
      cases hx : strTruthy (blockReasonOf r) with
      | false => rfl
      | true => exact absurd hx hb
    cases hi : firstImageData r with
    | some d =>
      refine ⟨?_, ?_, ?_, ?_, ?_⟩
      · simp [handleApiResponse, hb', hi]
      · intro hx
        rw [hx] at hb'
        cases hb'
      · intro d' _ hd'
        cases hd'
        simp [handleApiResponse, hb', hi]
      · intro _ hnone
        cases hnone
      · intro _ hnone
        cases hnone
    | none =>
      by_cases hf : strTruthy (finishReasonOf r) = true ∧ finishReasonOf r ≠ some "STOP"
      · refine ⟨?_, ?_, ?_, ?_, ?_⟩
        · constructor
          · rintro ⟨u, hu⟩
            simp [handleApiResponse, hb', hi, hf.1, hf.2] at hu
          · rintro ⟨_, hsome⟩
            simp at hsome
        · intro hx
          rw [hx] at hb'
          cases hb'
        · intro d' _ hd'
          cases hd'
        · intro _ _ _ _
          simp [handleApiResponse, hb', hi, hf.1, hf.2]
        · intro _ _ hnf
          exact absurd hf hnf
      · refine ⟨?_, ?_, ?_, ?_, ?_⟩
        · constructor
          · rintro ⟨u, hu⟩
            simp [handleApiResponse, hb', hi, hf] at hu
          · rintro ⟨_, hsome⟩
            simp at hsome
        · intro hx
          rw [hx] at hb'
          cases hb'
        · intro d' _ hd'
          cases hd'
        · intro _ _ ht hne
          exact absurd ⟨ht, hne⟩ hf
        · intro _ _ _
          simp [handleApiResponse, hb', hi, hf]

/-- Witness for C10: the concrete successful response decodes to its data
URL, and adding a block reason to the same response makes decoding throw the
blocked error even though the image part is still present. -/
theorem api_response_decoding_witness :
    handleApiResponse okResponse "la retouche"
        = Except.ok "data:image/png;base64,abc"
    ∧ handleApiResponse blockedResponse "la retouche"
        = Except.error (blockedMsg blockedResponse)
    ∧ firstImageData blockedResponse ≠ none := by
  refine ⟨?_, ?_, by decide⟩
  · exact (api_response_decoding okResponse "la retouche").2.2.1
      { mimeType := "image/png", data := "abc" } (by decide) (by decide)
  · exact (api_response_decoding blockedResponse "la retouche").2.1 (by decide)

end TerranPix
